import Mathlib

/-!
Verification of the process-supervisor core of LangConfig
(src/src-tauri/src/python_backend.rs).

The supervisor owns a single mutex-protected slot holding at most one
child-process handle.  Each Rust command is embedded as a pure function
from the slot contents and an environment (the outcomes of the OS calls
the body performs: lock acquisition, try_wait, current_dir, spawn, kill,
wait, or the HTTP round-trip) to a result together with the new slot
contents.  Error returns are modelled structurally, one constructor per
distinct error site of the source, with a render function giving the
exact message string the source builds.
-/

namespace LangConfig

/-- Handle to a spawned OS process (std::process::Child), identified by pid. -/
structure Child where
  pid : Nat
deriving DecidableEq, Repr

/-- Outcome of a non-blocking liveness check, child.try_wait():
Ok(None) while running, Ok(Some(status)) once exited, Err(e) when the
OS query itself fails. -/
inductive TryWait where
  | running
  | exited (code : Int)
  | failed (msg : String)
deriving DecidableEq, Repr

/-- True exactly on the Ok(None) outcome of try_wait. -/
def TryWait.isRunning : TryWait → Bool
  | .running => true
  | _ => false

/-- Stdio configuration for a spawned command. -/
inductive Stdio where
  | piped
  | inherited
  | nullDev
deriving DecidableEq, Repr

/-- The command issued to the OS by a spawn: program, arguments, working
directory and stream configuration. -/
structure CommandSpec where
  program : String
  args : List String
  cwd : String
  stdout : Stdio
  stderr : Stdio
deriving DecidableEq, Repr

/-- Path join, current_dir().join("backend"). -/
def pathJoin (a b : String) : String := a ++ "/" ++ b

/-- The spawn issued by start_python_backend once the application's
current directory is known: Command::new("python").arg("main.py")
.current_dir(backend_dir).stdout(piped).stderr(piped). -/
def backendCommand (currentDir : String) : CommandSpec :=
  ⟨"python", ["main.py"], pathJoin currentDir "backend", .piped, .piped⟩

/-- The supervisor state: a mutex-protected slot holding at most one
child handle (PythonBackend.process). -/
structure PythonBackend where
  process : Option Child
deriving DecidableEq, Repr

/-- PythonBackend::new(): the slot starts empty. -/
def PythonBackend.new : PythonBackend := ⟨none⟩

/-- Error sites of start_python_backend, one constructor each. -/
inductive StartError where
  | lockFailed (msg : String)
  | alreadyRunning
  | currentDirFailed (msg : String)
  | spawnFailed (msg : String)
deriving DecidableEq, Repr

/-- The exact error string the source returns at each start error site. -/
def renderStartError : StartError → String
  | .lockFailed e => e
  | .alreadyRunning => "Python backend is already running"
  | .currentDirFailed e => e
  | .spawnFailed e => "Failed to start Python backend: " ++ e

/-- Environment of one start_python_backend call: the outcome of each OS
interaction its body performs. -/
structure StartEnv where
  lock : Option String
  tryWait : TryWait
  currentDir : Except String String
  spawn : Except String Child
deriving Repr

/-- Result of one start_python_backend call: the returned value, the new
slot contents, and the command handed to the OS spawn, when one was. -/
structure StartResult where
  result : Except StartError String
  slot : Option Child
  spawned : Option CommandSpec
deriving Repr

/-- start_python_backend: fail if a held handle reports Ok(None) from
try_wait; otherwise resolve current_dir()/backend and spawn python
main.py there with stdout and stderr piped, storing the new handle. -/
def start_python_backend (state : Option Child) (env : StartEnv) : StartResult :=
  match env.lock with
  | some e => ⟨.error (.lockFailed e), state, none⟩
  | none =>
    if state.isSome && env.tryWait.isRunning then
      ⟨.error .alreadyRunning, state, none⟩
    else
      match env.currentDir with
      | .error e => ⟨.error (.currentDirFailed e), state, none⟩
      | .ok dir =>
        match env.spawn with
        | .error e => ⟨.error (.spawnFailed e), state, some (backendCommand dir)⟩
        | .ok child =>
          ⟨.ok "Python backend started successfully", some child, some (backendCommand dir)⟩

/-- Error sites of stop_python_backend, one constructor each. -/
inductive StopError where
  | lockFailed (msg : String)
  | terminationFailed (msg : String)
  | waitFailed (msg : String)
  | notRunning
deriving DecidableEq, Repr

/-- The exact error string the source returns at each stop error site. -/
def renderStopError : StopError → String
  | .lockFailed e => e
  | .terminationFailed e => "Failed to kill Python process: " ++ e
  | .waitFailed e => "Failed to wait for Python process: " ++ e
  | .notRunning => "Python backend is not running"

/-- Environment of one stop_python_backend call. -/
structure StopEnv where
  lock : Option String
  kill : Except String Unit
  wait : Except String Int
deriving Repr

/-- Result of one stop_python_backend call. -/
structure StopResult where
  result : Except StopError String
  slot : Option Child
deriving Repr

/-- stop_python_backend: take() the handle out of the slot (so the slot
is empty from then on), then kill, then wait; each of kill and wait may
fail, the slot stays empty regardless. -/
def stop_python_backend (state : Option Child) (env : StopEnv) : StopResult :=
  match env.lock with
  | some e => ⟨.error (.lockFailed e), state⟩
  | none =>
    match state with
    | none => ⟨.error .notRunning, none⟩
    | some _ =>
      match env.kill with
      | .error e => ⟨.error (.terminationFailed e), none⟩
      | .ok _ =>
        match env.wait with
        | .error e => ⟨.error (.waitFailed e), none⟩
        | .ok _ => ⟨.ok "Python backend stopped successfully", none⟩

/-- Error sites of is_backend_running, one constructor each. -/
inductive StatusError where
  | lockFailed (msg : String)
  | statusCheckFailed (msg : String)
deriving DecidableEq, Repr

/-- The exact error string the source returns at each status error site. -/
def renderStatusError : StatusError → String
  | .lockFailed e => e
  | .statusCheckFailed e => "Error checking process status: " ++ e

/-- Environment of one is_backend_running call. -/
structure StatusEnv where
  lock : Option String
  tryWait : TryWait
deriving DecidableEq, Repr

/-- Result of one is_backend_running call; checkedOS records whether the
body reached a child.try_wait() call. -/
structure StatusResult where
  result : Except StatusError Bool
  slot : Option Child
  checkedOS : Bool
deriving Repr

/-- is_backend_running: false when the slot is empty; otherwise
try_wait: Ok(None) yields true, Ok(Some) clears the slot and yields
false, Err yields a status-check error with the slot kept. -/
def is_backend_running (state : Option Child) (env : StatusEnv) : StatusResult :=
  match env.lock with
  | some e => ⟨.error (.lockFailed e), state, false⟩
  | none =>
    match state with
    | none => ⟨.ok false, none, false⟩
    | some c =>
      match env.tryWait with
      | .running => ⟨.ok true, some c, true⟩
      | .exited _ => ⟨.ok false, none, true⟩
      | .failed e => ⟨.error (.statusCheckFailed e), some c, true⟩

/-- An HTTP request: method, url, timeout in seconds. -/
structure HttpRequest where
  method : String
  url : String
  timeoutSecs : Nat
deriving DecidableEq, Repr

/-- The one request check_backend_health builds: GET
http://127.0.0.1:8765/health with a 5 second timeout. -/
def healthRequest : HttpRequest :=
  ⟨"GET", "http://127.0.0.1:8765/health", 5⟩

/-- An HTTP response, reduced to its status code. -/
structure HttpResponse where
  status : Nat
deriving DecidableEq, Repr

/-- StatusCode::is_success(): 200 up to and including 299. -/
def HttpResponse.isSuccess (r : HttpResponse) : Bool :=
  decide (200 ≤ r.status) && decide (r.status < 300)

/-- Error sites of check_backend_health, one constructor each. -/
inductive HealthError where
  | unhealthyStatus (status : Nat)
  | unreachable (msg : String)
deriving DecidableEq, Repr

/-- The exact error string the source returns at each health error site. -/
def renderHealthError : HealthError → String
  | .unhealthyStatus s => "Backend returned status: " ++ toString s
  | .unreachable e => "Failed to connect to backend: " ++ e

/-- Result of one check_backend_health call; requests records every HTTP
request the body sent, in order. -/
structure HealthResult where
  result : Except HealthError String
  requests : List HttpRequest

/-- check_backend_health: send one GET to the fixed health address with a
5 second timeout; a success status is healthy, any other status is an
unhealthy-status error, a transport failure is an unreachable error.  It
takes no supervisor state. -/
def check_backend_health (send : HttpRequest → Except String HttpResponse) : HealthResult :=
  match send healthRequest with
  | .ok response =>
    if response.isSuccess then
      ⟨.ok "Backend is healthy", [healthRequest]⟩
    else
      ⟨.error (.unhealthyStatus response.status), [healthRequest]⟩
  | .error e => ⟨.error (.unreachable e), [healthRequest]⟩

/-- get_backend_url: the fixed base address of the worker. -/
def get_backend_url : String := "http://127.0.0.1:8765"

/-- One supervisor call together with its OS environment. -/
inductive Op where
  | start (env : StartEnv)
  | stop (env : StopEnv)
  | status (env : StatusEnv)

/-- The slot contents after one supervisor call. -/
def step (s : Option Child) : Op → Option Child
  | .start env => (start_python_backend s env).slot
  | .stop env => (stop_python_backend s env).slot
  | .status env => (is_backend_running s env).slot

/-- The slot contents after a sequence of supervisor calls. -/
def run (s : Option Child) : List Op → Option Child
  | [] => s
  | op :: ops => run (step s op) ops

/-- Number of process handles held in the slot. -/
def handleCount : Option Child → Nat
  | none => 0
  | some _ => 1

/-- C1: when the slot holds a handle and the lock is acquired, Stop takes
the handle out of the slot before signalling, so after Stop returns the
slot holds no process, whatever the kill and wait outcomes (success,
termination failure or wait failure). -/
theorem stop_removes_handle_before_signaling (s : Option Child) (c : Child)
    (env : StopEnv) (hs : s = some c) (hl : env.lock = none) :
    (stop_python_backend s env).slot = none := by
  subst hs
  unfold stop_python_backend
  rw [hl]
  cases env.kill <;> cases env.wait <;> rfl

/-- Witness for C1 at a concrete state and a failing kill. -/
theorem stop_removes_handle_before_signaling_witness :
    (stop_python_backend (some ⟨1⟩) ⟨none, .error "EPERM", .ok 0⟩).slot = none :=
  stop_removes_handle_before_signaling (some ⟨1⟩) ⟨1⟩
    ⟨none, .error "EPERM", .ok 0⟩ rfl rfl

/-- C2: the slot holds at most one handle in every state, every single
Start, Stop or Status call preserves this, and every sequence of calls
from the initial state leaves at most one handle held. -/
theorem supervisor_at_most_one_handle :
    (∀ s : Option Child, handleCount s ≤ 1)
    ∧ (∀ (s : Option Child) (op : Op), handleCount (step s op) ≤ 1)
    ∧ (∀ ops : List Op, handleCount (run PythonBackend.new.process ops) ≤ 1) := by
  have h : ∀ s : Option Child, handleCount s ≤ 1 := by
    intro s
    cases s <;> simp [handleCount]
  exact ⟨h, fun s op => h _, fun ops => h _⟩

/-- C3: Status returns false on an empty slot without touching the OS;
on a held handle whose process has exited it clears the slot and returns
false, having checked the OS, and a subsequent Status call returns false
without checking the OS; on a held handle still running it returns true
and keeps the handle. -/
theorem is_backend_running_spec :
    (∀ env : StatusEnv, env.lock = none →
        is_backend_running none env = ⟨.ok false, none, false⟩)
    ∧ (∀ (c : Child) (code : Int) (env env2 : StatusEnv),
        env.lock = none → env.tryWait = .exited code → env2.lock = none →
          (is_backend_running (some c) env).result = .ok false
          ∧ (is_backend_running (some c) env).slot = none
          ∧ (is_backend_running (some c) env).checkedOS = true
          ∧ (is_backend_running (is_backend_running (some c) env).slot env2).result
              = .ok false
          ∧ (is_backend_running (is_backend_running (some c) env).slot env2).checkedOS
              = false)
    ∧ (∀ (c : Child) (env : StatusEnv), env.lock = none → env.tryWait = .running →
        (is_backend_running (some c) env).result = .ok true
        ∧ (is_backend_running (some c) env).slot = some c) := by
  refine ⟨?_, ?_, ?_⟩
  · intro env hl
    unfold is_backend_running
    rw [hl]
  · intro c code env env2 hl hw hl2
    simp [is_backend_running, hl, hw, hl2]
  · intro c env hl hw
    unfold is_backend_running
    rw [hl, hw]
    exact ⟨rfl, rfl⟩

/-- Witness for C3 at concrete states: empty slot, exited process, and
running process. -/
theorem is_backend_running_spec_witness :
    is_backend_running none ⟨none, .running⟩ = ⟨.ok false, none, false⟩
    ∧ (is_backend_running (some ⟨5⟩) ⟨none, .exited 0⟩).result = .ok false
    ∧ (is_backend_running (some ⟨5⟩) ⟨none, .running⟩).result = .ok true :=
  ⟨is_backend_running_spec.1 ⟨none, .running⟩ rfl,
   (is_backend_running_spec.2.1 ⟨5⟩ 0 ⟨none, .exited 0⟩ ⟨none, .running⟩ rfl rfl rfl).1,
   (is_backend_running_spec.2.2 ⟨5⟩ ⟨none, .running⟩ rfl rfl).1⟩

/-- C4: when a handle is held and try_wait reports the process still
running, Start fails with AlreadyRunning, the slot is unchanged, and no
spawn command is issued to the OS. -/
theorem start_already_running_unchanged (s : Option Child) (c : Child)
    (env : StartEnv) (hs : s = some c) (hl : env.lock = none)
    (hw : env.tryWait = .running) :
    (start_python_backend s env).result = .error .alreadyRunning
    ∧ (start_python_backend s env).slot = s
    ∧ (start_python_backend s env).spawned = none := by
  subst hs
  unfold start_python_backend
  rw [hl, hw]
  exact ⟨rfl, rfl, rfl⟩

/-- Witness for C4 at a concrete held handle. -/
theorem start_already_running_unchanged_witness :
    (start_python_backend (some ⟨2⟩) ⟨none, .running, .ok "/app", .ok ⟨9⟩⟩).result
      = .error .alreadyRunning :=
  (start_already_running_unchanged (some ⟨2⟩) ⟨2⟩
    ⟨none, .running, .ok "/app", .ok ⟨9⟩⟩ rfl rfl rfl).1

/-- C5: when no handle is held, or the held process has already exited,
and the spawn succeeds, Start succeeds, stores the new handle in the slot
overwriting any stale entry, and the command issued is python main.py in
the backend subdirectory of the current directory with stdout and stderr
piped. -/
theorem start_success_spawns_and_stores (s : Option Child) (env : StartEnv)
    (d : String) (c2 : Child) (hl : env.lock = none)
    (hs : s = none ∨ ∃ c code, s = some c ∧ env.tryWait = .exited code)
    (hd : env.currentDir = .ok d) (hsp : env.spawn = .ok c2) :
    (start_python_backend s env).result = .ok "Python backend started successfully"
    ∧ (start_python_backend s env).slot = some c2
    ∧ (start_python_backend s env).spawned = some (backendCommand d)
    ∧ backendCommand d = ⟨"python", ["main.py"], d ++ "/" ++ "backend", .piped, .piped⟩ := by
  have hguard : (s.isSome && env.tryWait.isRunning) = false := by
    rcases hs with h | ⟨c, code, h, hw⟩
    · subst h
      rfl
    · subst h
      rw [hw]
      rfl
  unfold start_python_backend
  rw [hl, hguard, hd, hsp]
  exact ⟨rfl, rfl, rfl, rfl⟩

/-- Witness for C5: a stale exited handle is overwritten by the freshly
spawned one. -/
theorem start_success_spawns_and_stores_witness :
    (start_python_backend (some ⟨2⟩) ⟨none, .exited 1, .ok "/app", .ok ⟨9⟩⟩).slot
      = some ⟨9⟩ :=
  (start_success_spawns_and_stores (some ⟨2⟩) ⟨none, .exited 1, .ok "/app", .ok ⟨9⟩⟩
    "/app" ⟨9⟩ rfl (Or.inr ⟨⟨2⟩, 1, rfl, rfl⟩) rfl rfl).2.1

/-- C6: CheckHealth sends exactly one request, the fixed GET to
http://127.0.0.1:8765/health with a 5 second timeout; it is healthy iff
the response status is a success code, a non-success status yields the
unhealthy-status error, a transport failure yields the unreachable
error, and the outcome depends only on the response to that one request
(no supervisor state is read or written). -/
theorem check_backend_health_spec :
    healthRequest = ⟨"GET", "http://127.0.0.1:8765/health", 5⟩
    ∧ (∀ send : HttpRequest → Except String HttpResponse,
        (check_backend_health send).requests = [healthRequest])
    ∧ (∀ (send : HttpRequest → Except String HttpResponse) (r : HttpResponse),
        send healthRequest = .ok r →
          ((check_backend_health send).result = .ok "Backend is healthy"
              ↔ r.isSuccess = true)
          ∧ (r.isSuccess = false →
              (check_backend_health send).result = .error (.unhealthyStatus r.status)))
    ∧ (∀ (send : HttpRequest → Except String HttpResponse) (e : String),
        send healthRequest = .error e →
          (check_backend_health send).result = .error (.unreachable e))
    ∧ (∀ send1 send2 : HttpRequest → Except String HttpResponse,
        send1 healthRequest = send2 healthRequest →
          check_backend_health send1 = check_backend_health send2) := by
  refine ⟨rfl, ?_, ?_, ?_, ?_⟩
  · intro send
    unfold check_backend_health
    cases send healthRequest with
    | ok r =>
      by_cases hr : r.isSuccess <;> simp [hr]
    | error e => rfl
  · intro send r h
    unfold check_backend_health
    rw [h]
    by_cases hr : r.isSuccess = true
    · simp [hr]
    · simp [hr]
  · intro send e h
    unfold check_backend_health
    rw [h]
  · intro send1 send2 h
    unfold check_backend_health
    rw [h]

/-- Witness for C6 at concrete responders: HTTP 200, HTTP 503, and a
refused connection. -/
theorem check_backend_health_spec_witness :
    ((check_backend_health (fun _ => .ok ⟨200⟩)).result = .ok "Backend is healthy"
        ↔ HttpResponse.isSuccess ⟨200⟩ = true)
    ∧ (check_backend_health (fun _ => .ok ⟨503⟩)).result = .error (.unhealthyStatus 503)
    ∧ (check_backend_health (fun _ => .error "connection refused")).result
        = .error (.unreachable "connection refused") :=
  ⟨(check_backend_health_spec.2.2.1 (fun _ => .ok ⟨200⟩) ⟨200⟩ rfl).1,
   (check_backend_health_spec.2.2.1 (fun _ => .ok ⟨503⟩) ⟨503⟩ rfl).2 rfl,
   check_backend_health_spec.2.2.2.1 (fun _ => .error "connection refused")
     "connection refused" rfl⟩

/-- C7: Stop on an empty slot fails with NotRunning and the slot stays
empty (no transition). -/
theorem stop_not_running_unchanged (env : StopEnv) (hl : env.lock = none) :
    (stop_python_backend none env).result = .error .notRunning
    ∧ (stop_python_backend none env).slot = none := by
  unfold stop_python_backend
  rw [hl]
  exact ⟨rfl, rfl⟩

/-- Witness for C7 at a concrete environment. -/
theorem stop_not_running_unchanged_witness :
    (stop_python_backend none ⟨none, .ok (), .ok 0⟩).result = .error .notRunning :=
  (stop_not_running_unchanged ⟨none, .ok (), .ok 0⟩ rfl).1

/-- C8: whenever Start or Status returns an error (lock failure,
AlreadyRunning, current-directory failure, SpawnFailed,
StatusCheckFailed), the slot is left exactly as it was before the call. -/
theorem start_status_error_atomicity :
    (∀ (s : Option Child) (env : StartEnv) (e : StartError),
        (start_python_backend s env).result = .error e →
          (start_python_backend s env).slot = s)
    ∧ (∀ (s : Option Child) (env : StatusEnv) (e : StatusError),
        (is_backend_running s env).result = .error e →
          (is_backend_running s env).slot = s) := by
  constructor
  · intro s env e h
    obtain ⟨lk, tw, cd, sp⟩ := env
    cases lk <;> cases s <;> cases tw <;> cases cd <;> cases sp <;>
      simp_all [start_python_backend, TryWait.isRunning]
  · intro s env e h
    obtain ⟨lk, tw⟩ := env
    cases lk <;> cases s <;> cases tw <;> simp_all [is_backend_running]

/-- Witness for C8: a failed spawn and a failed status check both leave
the held handle in place. -/
theorem start_status_error_atomicity_witness :
    (start_python_backend none ⟨none, .running, .ok "/app", .error "no python"⟩).slot
      = none
    ∧ (is_backend_running (some ⟨3⟩) ⟨none, .failed "EPERM"⟩).slot = some ⟨3⟩ :=
  ⟨start_status_error_atomicity.1 none ⟨none, .running, .ok "/app", .error "no python"⟩
     (.spawnFailed "no python") rfl,
   start_status_error_atomicity.2 (some ⟨3⟩) ⟨none, .failed "EPERM"⟩
     (.statusCheckFailed "EPERM") rfl⟩

/-- C9: when a handle is held but try_wait itself errors, Start neither
fails with AlreadyRunning nor with a lock error: the guard is skipped,
and when the directory lookup and the spawn succeed the new handle
overwrites the held one. -/
theorem start_skips_guard_on_try_wait_error (c : Child) (env : StartEnv)
    (msg : String) (hl : env.lock = none) (hw : env.tryWait = .failed msg) :
    (start_python_backend (some c) env).result ≠ .error .alreadyRunning
    ∧ (∀ m, (start_python_backend (some c) env).result ≠ .error (.lockFailed m))
    ∧ (∀ (d : String) (c2 : Child), env.currentDir = .ok d → env.spawn = .ok c2 →
        (start_python_backend (some c) env).result
            = .ok "Python backend started successfully"
        ∧ (start_python_backend (some c) env).slot = some c2
        ∧ (start_python_backend (some c) env).spawned = some (backendCommand d)) := by
  have hguard : ((some c).isSome && env.tryWait.isRunning) = false := by
    rw [hw]
    rfl
  refine ⟨?_, ?_, ?_⟩
  · unfold start_python_backend
    rw [hl, hguard]
    cases hcd : env.currentDir with
    | error e => simp
    | ok d =>
      cases hsp : env.spawn with
      | error e2 => simp
      | ok c2 => simp
  · intro m
    unfold start_python_backend
    rw [hl, hguard]
    cases hcd : env.currentDir with
    | error e => simp
    | ok d =>
      cases hsp : env.spawn with
      | error e2 => simp
      | ok c2 => simp
  · intro d c2 hd hsp
    unfold start_python_backend
    rw [hl, hguard, hd, hsp]
    exact ⟨rfl, rfl, rfl⟩

/-- Witness for C9: a handle whose try_wait errors is overwritten by a
successful spawn. -/
theorem start_skips_guard_on_try_wait_error_witness :
    (start_python_backend (some ⟨4⟩) ⟨none, .failed "ECHILD", .ok "/app", .ok ⟨7⟩⟩).slot
      = some ⟨7⟩ :=
  ((start_skips_guard_on_try_wait_error ⟨4⟩
      ⟨none, .failed "ECHILD", .ok "/app", .ok ⟨7⟩⟩ "ECHILD" rfl rfl).2.2
    "/app" ⟨7⟩ rfl rfl).2.1

/-- C10: with the lock acquired, Stop fails with NotRunning exactly when
the slot is empty; a held handle, even to an already-exited process, is
removed, killed and waited on, and when kill and wait succeed Stop
reports the success message with the slot cleared. -/
theorem stop_not_running_iff_empty (s : Option Child) (env : StopEnv)
    (hl : env.lock = none) :
    ((stop_python_backend s env).result = .error .notRunning ↔ s = none)
    ∧ (∀ (c : Child) (code : Int),
        s = some c → env.kill = .ok () → env.wait = .ok code →
          (stop_python_backend s env).result
              = .ok "Python backend stopped successfully"
          ∧ (stop_python_backend s env).slot = none) := by
  constructor
  · cases s with
    | none =>
      unfold stop_python_backend
      rw [hl]
      simp
    | some c =>
      unfold stop_python_backend
      rw [hl]
      cases env.kill <;> cases env.wait <;> simp
  · intro c code hs hk hw
    subst hs
    unfold stop_python_backend
    rw [hl, hk, hw]
    exact ⟨rfl, rfl⟩

/-- Witness for C10: an exited-but-uncleared handle is stopped with the
success message, and the empty slot yields NotRunning. -/
theorem stop_not_running_iff_empty_witness :
    (stop_python_backend (some ⟨6⟩) ⟨none, .ok (), .ok 1⟩).result
      = .ok "Python backend stopped successfully"
    ∧ ((stop_python_backend none ⟨none, .ok (), .ok 1⟩).result
        = .error .notRunning ↔ (none : Option Child) = none) :=
  ⟨((stop_not_running_iff_empty (some ⟨6⟩) ⟨none, .ok (), .ok 1⟩ rfl).2
      ⟨6⟩ 1 rfl rfl rfl).1,
   (stop_not_running_iff_empty none ⟨none, .ok (), .ok 1⟩ rfl).1⟩

end LangConfig
